import Mathlib

/-!
Shallow embedding of `try_attiny85_watchdog_and_user_interrupt.ino`.

The sketch keeps an AVR MCU (ATmega328P or ATtiny85) in power-down sleep and
wakes it from three sources: the watchdog timer (every 8 s, with a finite
budget of 10 wakes), the external interrupt INT0, and the pin-change
interrupt PCINT0.  LED flashes are the observable signals: the green
"watchdog timeout" LED maps to the WatchdogTimeoutChannel of the spec and the
yellow "sleep interrupt" LED to SleepInterruptChannel.

Machine integers: `watchdogTimeoutsRemaining` is an `int8_t`; we model it as
an `Int` with explicit wrap-around at the 8-bit boundary.  The I/O registers
(`WDTCR`/`WDTCSR`, `MCUSR`, `EIMSK`, `EICRA`, `GIMSK`, `MCUCR`, `PCMSK`, …)
are modelled as `Nat` bytes manipulated with the same bit operations the
source uses.
-/

namespace Attiny85Watchdog

/-- Signal channels of the external EventSignaler.  The green LED
(`WATCHDOG_TIMEOUT_LED_PIN`) is the WatchdogTimeoutChannel, the yellow LED
(`SLEEP_INTERRUPT_LED_PIN`) is the SleepInterruptChannel. -/
inductive Channel where
  | WatchdogTimeoutChannel
  | SleepInterruptChannel
  deriving DecidableEq, Repr

/-- The two hardware profiles selected by `#if` in the source. -/
inductive Platform where
  | ATmega328P
  | ATtiny85
  deriving DecidableEq, Repr

/-- `_BV(n)` from avr-libc: the byte with only bit `n` set. -/
def _BV (n : Nat) : Nat := 2 ^ n

/-- Bit number of WDRF in MCUSR (watchdog reset flag). -/
def WDRF : Nat := 3
/-- Bit number of WDE in the watchdog control register. -/
def WDE : Nat := 3
/-- Bit number of WDIE in the watchdog control register. -/
def WDIE : Nat := 6
/-- `WDTO_8S` prescaler bits: WDP3 (bit 5) and WDP0 (bit 0). -/
def WDTO_8S_BITS : Nat := _BV 5 ||| _BV 0
/-- Bit number of INT0 in EIMSK (ATmega328P). -/
def INT0_MEGA : Nat := 0
/-- Bit number of INT0 in GIMSK (ATtiny85). -/
def INT0_TINY : Nat := 6
/-- Bit number of ISC01. -/
def ISC01 : Nat := 1
/-- Bit number of ISC00. -/
def ISC00 : Nat := 0
/-- Bit number of PCIE0 in PCICR (ATmega328P). -/
def PCIE0 : Nat := 0
/-- Bit number of PCIE in GIMSK (ATtiny85). -/
def PCIE : Nat := 5
/-- Bit number of PCINT1 in PCMSK0 (ATmega328P). -/
def PCINT1 : Nat := 1
/-- Bit number of PCINT3 in PCMSK (ATtiny85). -/
def PCINT3 : Nat := 3

/-- Wrap an integer into the `int8_t` range `[-128, 127]` (8-bit two-complement style
wrap-around, as avr-gcc produces for `int8_t` arithmetic). -/
def wrap8 (x : Int) : Int := (x + 128) % 256 - 128

/-- The machine state visible to the embedded program: the global counter,
the I/O registers the source touches, plus the observable logs (the list of
emitted LED signals as `(channel, pulseCount)` pairs, the accumulated
blocking-delay milliseconds) and a ghost counter of periodic (watchdog)
wakes actually produced. -/
structure MCUState where
  /-- `int8_t watchdogTimeoutsRemaining`, the wake budget. -/
  watchdogTimeoutsRemaining : Int
  /-- `_WD_CONTROL_REG` (WDTCR on ATtiny85, WDTCSR on ATmega328P). -/
  wdtcr : Nat
  /-- `MCUSR`, holding the WDRF reset-cause flag at bit 3. -/
  mcusr : Nat
  /-- `EIMSK` (ATmega328P external-interrupt mask). -/
  eimsk : Nat
  /-- `EICRA` (ATmega328P INT0 sense control). -/
  eicra : Nat
  /-- `GIMSK` (ATtiny85 general interrupt mask). -/
  gimsk : Nat
  /-- `MCUCR` (ATtiny85, INT0 sense control bits ISC01/ISC00). -/
  mcucr : Nat
  /-- `PCICR` (ATmega328P pin-change interrupt control). -/
  pcicr : Nat
  /-- `PCMSK0` (ATmega328P pin-change mask). -/
  pcmsk0 : Nat
  /-- `PCMSK` (ATtiny85 pin-change mask). -/
  pcmsk : Nat
  /-- Log of EventSignaler emissions: `flashLED(pin, times)` appends
  `(channel-of-pin, times)`. -/
  signals : List (Channel × Nat)
  /-- Total blocking `delay(ms)` executed so far. -/
  delayMs : Nat
  /-- Ghost: number of periodic (watchdog) wake events produced so far. -/
  wdtFireCount : Nat
  deriving DecidableEq, Repr

/-- `delay(ms)`: a blocking busy-wait; observable only in the delay log. -/
def delay (ms : Nat) (s : MCUState) : MCUState :=
  { s with delayMs := s.delayMs + ms }

/-- `flashLED(pin, times)`: emits one signal of `times` pulses on the corresponding
channel; each pulse is 200 ms on + 200 ms off of blocking delay. -/
def flashLED (c : Channel) (times : Nat) (s : MCUState) : MCUState :=
  { s with signals := s.signals ++ [(c, times)]
           delayMs := s.delayMs + times * 400 }

/-- `turnOnLED(pin, ms)`: drives the pin high for `ms` (boot self-test);
a solid-on period, not a flash signal, so only the delay log changes. -/
def turnOnLED (ms : Nat) (s : MCUState) : MCUState :=
  { s with delayMs := s.delayMs + ms }

/-- `MCUSR &= ~_BV(WDRF)`: clear the watchdog reset-cause flag. -/
def clearWDRF (s : MCUState) : MCUState :=
  { s with mcusr := s.mcusr &&& (255 ^^^ _BV WDRF) }

/-- avr-libc `wdt_disable()`: the timed sequence ends with the watchdog
control register cleared — WDE, WDIE and the prescaler all 0. -/
def wdt_disable (s : MCUState) : MCUState :=
  { s with wdtcr := 0 }

/-- avr-libc `wdt_enable(WDTO_8S)`: the timed sequence ends with the
control register holding WDE plus the 8-second prescaler bits. -/
def wdt_enable_8s (s : MCUState) : MCUState :=
  { s with wdtcr := _BV WDE ||| WDTO_8S_BITS }

/-- `disable_watchdog()` from the source: clears WDRF in MCUSR, then calls
`wdt_disable()` — in that order. -/
def disable_watchdog (s : MCUState) : MCUState :=
  wdt_disable (clearWDRF s)

/-- `ISR(WDT_vect)`: decrements the budget (8-bit wrap-around), flashes the
green LED once, and re-arms WDIE in the watchdog control register — all
before the handler returns. -/
def wdtISR (s : MCUState) : MCUState :=
  let s1 := { s with watchdogTimeoutsRemaining :=
                wrap8 (s.watchdogTimeoutsRemaining - 1) }
  let s2 := flashLED Channel.WatchdogTimeoutChannel 1 s1
  { s2 with wdtcr := s2.wdtcr ||| _BV WDIE }

/-- `ISR(INT0_vect)`: the body only flashes the green LED twice
(`flashLED(WATCHDOG_TIMEOUT_LED_PIN, 2)`). -/
def int0ISR (s : MCUState) : MCUState :=
  flashLED Channel.WatchdogTimeoutChannel 2 s

/-- `ISR(PCINT0_vect)`: the body only executes `delay(50)` to debounce. -/
def pcint0ISR (s : MCUState) : MCUState :=
  delay 50 s

/-- `configInt0()`: per-platform INT0 configuration, translated from the two
`#if` branches. -/
def configInt0 (p : Platform) (s : MCUState) : MCUState :=
  match p with
  | Platform.ATmega328P =>
      { s with eimsk := _BV INT0_MEGA
               eicra := _BV ISC01 }
  | Platform.ATtiny85 =>
      { s with gimsk := s.gimsk ||| _BV INT0_TINY
               mcucr := s.mcucr &&& (255 ^^^ (_BV ISC01 ||| _BV ISC00)) }

/-- `configPinChangeInt0()`: per-platform pin-change configuration,
translated from the two `#if` branches. -/
def configPinChangeInt0 (p : Platform) (s : MCUState) : MCUState :=
  match p with
  | Platform.ATmega328P =>
      { s with pcicr := s.pcicr ||| _BV PCIE0
               pcmsk0 := s.pcmsk0 ||| _BV PCINT1 }
  | Platform.ATtiny85 =>
      { s with gimsk := s.gimsk ||| _BV PCIE
               pcmsk := s.pcmsk ||| _BV PCINT3 }

/-- The body of `loop()` that runs after `sleep_cpu()` returns from a wake:
flash the yellow LED once, then disable the watchdog if the budget is 0.
(The sleep/sei/sleep-enable calls surrounding the suspension point have no
effect on the modelled state.) -/
def loopBody (s : MCUState) : MCUState :=
  let s1 := flashLED Channel.SleepInterruptChannel 1 s
  if s1.watchdogTimeoutsRemaining = 0 then disable_watchdog s1 else s1

/-- State at power-on reset: the global initializer sets the budget to 10;
registers start cleared except MCUSR, where we let the WDRF reset-cause
flag be set (the worst case `setup()` must handle). -/
def powerOnState : MCUState :=
  { watchdogTimeoutsRemaining := 10
    wdtcr := 0, mcusr := _BV WDRF, eimsk := 0, eicra := 0, gimsk := 0
    mcucr := 0, pcicr := 0, pcmsk0 := 0, pcmsk := 0
    signals := [], delayMs := 0, wdtFireCount := 0 }

/-- `setup()`: disable the watchdog, configure the inputs and interrupt
sources, light both LEDs solid for 1 s each, enable the watchdog with the
8-second timeout and set WDIE.  (`pinMode`/`configInputWithPullup` touch
only pin-direction state we do not model.) -/
def setup (p : Platform) (s : MCUState) : MCUState :=
  let s1 := disable_watchdog s
  let s2 := configInt0 p s1
  let s3 := configPinChangeInt0 p s2
  let s4 := turnOnLED 1000 (turnOnLED 1000 s3)
  let s5 := wdt_enable_8s s4
  { s5 with wdtcr := s5.wdtcr ||| _BV WDIE }

/-- The state in which the main loop starts, after reset and `setup()`. -/
def initState (p : Platform) : MCUState := setup p powerOnState

/-- The three wake sources that can end a `sleep_cpu()` suspension. -/
inductive WakeSource where
  | Watchdog
  | ExtInt0
  | PinChange
  deriving DecidableEq, Repr

/-- One wake cycle: the interrupt of the source fires during sleep, its ISR runs
to completion, then control passes the suspension point and the `loop()`
body runs.  A `Watchdog` event only produces a wake when WDIE is set (the
hardware clears WDIE on firing; the ISR sets it back); when the watchdog is
disabled the event is a non-event and the MCU stays asleep.  The model
relies on the timing of the source: the 8 s watchdog period far exceeds the
≤ 800 ms a wake cycle spends flashing, so each interrupt arrives during
sleep and is followed by one `loop()` iteration before the next. -/
def runCycle (e : WakeSource) (s : MCUState) : MCUState :=
  match e with
  | WakeSource.Watchdog =>
      if s.wdtcr.testBit WDIE then
        let fired := { s with wdtcr := s.wdtcr &&& (255 ^^^ _BV WDIE)
                              wdtFireCount := s.wdtFireCount + 1 }
        loopBody (wdtISR fired)
      else s
  | WakeSource.ExtInt0 => loopBody (int0ISR s)
  | WakeSource.PinChange => loopBody (pcint0ISR s)

/-- Run a sequence of wake events. -/
def runCycles : List WakeSource → MCUState → MCUState
  | [], s => s
  | e :: es, s => runCycles es (runCycle e s)

/-- Count the signals emitted on a channel. -/
def countChannel : List (Channel × Nat) → Channel → Nat
  | [], _ => 0
  | x :: xs, c => (if x.1 = c then 1 else 0) + countChannel xs c


/-- The INT0 sense modes selectable through ISC01/ISC00 (AVR datasheets:
00 = low level, 01 = any logical change, 10 = falling edge,
11 = rising edge). -/
inductive Int0Sense where
  | LowLevel
  | AnyChange
  | FallingEdge
  | RisingEdge
  deriving DecidableEq, Repr

/-- Decode the two ISC bits of a sense-control register byte. -/
def int0SenseOfBits (b : Nat) : Int0Sense :=
  if b &&& 3 = 0 then Int0Sense.LowLevel
  else if b &&& 3 = 1 then Int0Sense.AnyChange
  else if b &&& 3 = 2 then Int0Sense.FallingEdge
  else Int0Sense.RisingEdge

/-- The INT0 sense mode a state configures: read from EICRA on the
ATmega328P and from MCUCR on the ATtiny85. -/
def int0Sense (p : Platform) (s : MCUState) : Int0Sense :=
  match p with
  | Platform.ATmega328P => int0SenseOfBits s.eicra
  | Platform.ATtiny85 => int0SenseOfBits s.mcucr

/-- A digital input level on a pin. -/
inductive Level where
  | low
  | high
  deriving DecidableEq, Repr

/-- Number of falling (high-to-low) edges in a pin trace, given the level
before the trace starts (the pull-up idles the pin high).  Each falling
edge raises one INT0 interrupt in falling-edge sense mode. -/
def fallingEdges : Level → List Level → Nat
  | _, [] => 0
  | prev, l :: ls =>
      (if prev = Level.high ∧ l = Level.low then 1 else 0) + fallingEdges l ls

/-- Number of level changes (either direction) in a pin trace, given the
level before the trace starts.  Each change raises one pin-change
interrupt (the source comments: pin-change interrupts are triggered for
each level change and this cannot be configured). -/
def pinChanges : Level → List Level → Nat
  | _, [] => 0
  | prev, l :: ls =>
      (if prev ≠ l then 1 else 0) + pinChanges l ls

/-- Pin trace of a single press-and-release of a pushbutton with pull-up:
the pin idles high, is held low while pressed (about 100 ms), then returns
high. -/
def pressReleaseTrace : List Level := [Level.low, Level.high]

/-- Where the main context stands relative to the `sleep_cpu()` suspension
point during a low-level INT0 episode. -/
inductive CtrlPoint where
  | sleeping
  | inIsrLoop
  | pastSleep
  deriving DecidableEq, Repr

/-- Main-context position paired with the machine state. -/
structure LevelRunState where
  cp : CtrlPoint
  mcu : MCUState
  deriving DecidableEq, Repr

/-- One sample step of the low-level-sense INT0 hardware semantics during a
sleep episode, as documented in the source comments on `configInt0` and
`ISR(INT0_vect)` for the ATtiny85: while the pin is held low the interrupt
condition persists, so the handler executes first and repeatedly and the
main context never advances past `sleep_cpu()`; only when the input
returns high does control pass the suspension point and the `loop()` body
run. -/
def lowLevelStep (pin : Level) (st : LevelRunState) : LevelRunState :=
  match st.cp, pin with
  | CtrlPoint.pastSleep, _ => st
  | CtrlPoint.sleeping, Level.high => st
  | CtrlPoint.sleeping, Level.low =>
      { cp := CtrlPoint.inIsrLoop, mcu := int0ISR st.mcu }
  | CtrlPoint.inIsrLoop, Level.low =>
      { cp := CtrlPoint.inIsrLoop, mcu := int0ISR st.mcu }
  | CtrlPoint.inIsrLoop, Level.high =>
      { cp := CtrlPoint.pastSleep, mcu := loopBody st.mcu }

/-- Run the low-level INT0 semantics over a sampled pin trace. -/
def runLevelTrace : List Level → LevelRunState → LevelRunState
  | [], st => st
  | l :: ls, st => runLevelTrace ls (lowLevelStep l st)

/-- n-fold application of the INT0 handler. -/
def int0ISRn : Nat → MCUState → MCUState
  | 0, s => s
  | n + 1, s => int0ISRn n (int0ISR s)


/-! ### Characterization lemmas -/

/-- Wrapping is the identity on values already in the int8 range. -/
theorem wrap8_eq_self (x : Int) (h1 : -128 ≤ x) (h2 : x ≤ 127) :
    wrap8 x = x := by
  unfold wrap8
  omega

/-- The watchdog handler written out as a single record update. -/
theorem wdtISR_eq (s : MCUState) :
    wdtISR s =
      { s with
        watchdogTimeoutsRemaining := wrap8 (s.watchdogTimeoutsRemaining - 1)
        signals := s.signals ++ [(Channel.WatchdogTimeoutChannel, 1)]
        delayMs := s.delayMs + 400
        wdtcr := s.wdtcr ||| _BV WDIE } := rfl

/-- The INT0 handler written out as a single record update. -/
theorem int0ISR_eq (s : MCUState) :
    int0ISR s =
      { s with
        signals := s.signals ++ [(Channel.WatchdogTimeoutChannel, 2)]
        delayMs := s.delayMs + 800 } := rfl

/-- The pin-change handler written out as a single record update. -/
theorem pcint0ISR_eq (s : MCUState) :
    pcint0ISR s = { s with delayMs := s.delayMs + 50 } := rfl

/-- The loop body written out: one yellow flash, then the conditional
watchdog disable. -/
theorem loopBody_eq (s : MCUState) :
    loopBody s =
      if s.watchdogTimeoutsRemaining = 0 then
        { s with
          signals := s.signals ++ [(Channel.SleepInterruptChannel, 1)]
          delayMs := s.delayMs + 400
          mcusr := s.mcusr &&& (255 ^^^ _BV WDRF)
          wdtcr := 0 }
      else
        { s with
          signals := s.signals ++ [(Channel.SleepInterruptChannel, 1)]
          delayMs := s.delayMs + 400 } := by
  unfold loopBody flashLED disable_watchdog wdt_disable clearWDRF
  by_cases h : s.watchdogTimeoutsRemaining = 0 <;> simp [h]

/-- A watchdog event with WDIE armed: hardware clears WDIE, the handler
runs, then the loop body. -/
theorem runCycle_watchdog_armed (s : MCUState)
    (hb : s.wdtcr.testBit WDIE = true) :
    runCycle WakeSource.Watchdog s =
      loopBody (wdtISR
        { s with wdtcr := s.wdtcr &&& (255 ^^^ _BV WDIE)
                 wdtFireCount := s.wdtFireCount + 1 }) := by
  simp [runCycle, hb]

/-- A watchdog event with WDIE clear is a non-event. -/
theorem runCycle_watchdog_not_armed (s : MCUState)
    (hb : s.wdtcr.testBit WDIE = false) :
    runCycle WakeSource.Watchdog s = s := by
  simp [runCycle, hb]

/-- Running an appended event list is running the two parts in order. -/
theorem runCycles_append (a b : List WakeSource) (s : MCUState) :
    runCycles (a ++ b) s = runCycles b (runCycles a s) := by
  induction a generalizing s with
  | nil => rfl
  | cons e es ih => simp [runCycles, ih]

/-- Channel counts add over appended signal logs. -/
theorem countChannel_append (l1 l2 : List (Channel × Nat)) (c : Channel) :
    countChannel (l1 ++ l2) c = countChannel l1 c + countChannel l2 c := by
  induction l1 with
  | nil => simp [countChannel]
  | cons x xs ih => simp [countChannel, ih, Nat.add_assoc]

/-! ### The reachability invariant of the wake-cycle system -/

/-- Invariant of all states reachable by whole wake cycles from the initial
state: the budget stays within `[0, 10]`, and once it is 0 the watchdog
control register has been fully cleared. -/
def Inv (s : MCUState) : Prop :=
  0 ≤ s.watchdogTimeoutsRemaining ∧ s.watchdogTimeoutsRemaining ≤ 10 ∧
    (s.watchdogTimeoutsRemaining = 0 → s.wdtcr = 0)

/-- The invariant holds right after `setup()` on either platform. -/
theorem inv_initState (p : Platform) : Inv (initState p) := by
  cases p <;> exact ⟨by decide, by decide, by decide⟩

/-- Every wake cycle preserves the invariant. -/
theorem inv_runCycle (e : WakeSource) (s : MCUState) (h : Inv s) :
    Inv (runCycle e s) := by
  obtain ⟨h1, h2, h3⟩ := h
  cases e with
  | Watchdog =>
    by_cases hb : s.wdtcr.testBit WDIE
    · have hr : s.watchdogTimeoutsRemaining ≠ 0 := by
        intro h0
        rw [h3 h0] at hb
        simp [Nat.zero_testBit] at hb
      have hw : wrap8 (s.watchdogTimeoutsRemaining - 1) =
          s.watchdogTimeoutsRemaining - 1 :=
        wrap8_eq_self _ (by omega) (by omega)
      rw [runCycle_watchdog_armed s hb, wdtISR_eq, loopBody_eq]
      simp only [hw]
      by_cases h0 : s.watchdogTimeoutsRemaining - 1 = 0 <;>
        simp only [h0, if_true, if_false, reduceIte] <;>
        refine ⟨?_, ?_, ?_⟩ <;> dsimp only <;> omega
    · rw [runCycle_watchdog_not_armed s (by simpa using hb)]
      exact ⟨h1, h2, h3⟩
  | ExtInt0 =>
    rw [show runCycle WakeSource.ExtInt0 s = loopBody (int0ISR s) from rfl,
        int0ISR_eq, loopBody_eq]
    by_cases h0 : s.watchdogTimeoutsRemaining = 0 <;>
      simp only [h0, if_true, if_false, reduceIte] <;>
      refine ⟨?_, ?_, ?_⟩ <;> dsimp only <;> omega
  | PinChange =>
    rw [show runCycle WakeSource.PinChange s = loopBody (pcint0ISR s) from rfl,
        pcint0ISR_eq, loopBody_eq]
    by_cases h0 : s.watchdogTimeoutsRemaining = 0 <;>
      simp only [h0, if_true, if_false, reduceIte] <;>
      refine ⟨?_, ?_, ?_⟩ <;> dsimp only <;> omega

/-- The invariant holds after any sequence of wake cycles. -/
theorem inv_runCycles (tr : List WakeSource) (s : MCUState) (h : Inv s) :
    Inv (runCycles tr s) := by
  induction tr generalizing s with
  | nil => exact h
  | cons e es ih => exact ih _ (inv_runCycle e s h)

/-- Counting a singleton log entry on its own channel. -/
theorem countChannel_single_same (c : Channel) (n : Nat) :
    countChannel [(c, n)] c = 1 := by
  simp [countChannel]

/-- Counting a singleton log entry on the other channel. -/
theorem countChannel_single_other (c c2 : Channel) (n : Nat) (h : c ≠ c2) :
    countChannel [(c, n)] c2 = 0 := by
  simp [countChannel, h]

/-- The loop body appends exactly one 1-pulse SleepInterruptChannel signal,
whether or not it also disables the watchdog. -/
theorem loopBody_signals (s : MCUState) :
    (loopBody s).signals = s.signals ++ [(Channel.SleepInterruptChannel, 1)] := by
  rw [loopBody_eq]
  by_cases h : s.watchdogTimeoutsRemaining = 0 <;> simp [h]

/-- Signals emitted by a watchdog wake cycle: one green from the handler,
one yellow from the loop body. -/
theorem runCycle_watchdog_signals (s : MCUState)
    (hb : s.wdtcr.testBit WDIE = true) :
    (runCycle WakeSource.Watchdog s).signals =
      s.signals ++ [(Channel.WatchdogTimeoutChannel, 1),
                    (Channel.SleepInterruptChannel, 1)] := by
  rw [runCycle_watchdog_armed s hb, loopBody_signals, wdtISR_eq]
  simp

/-- Signals emitted by an INT0 (edge) wake cycle: one 2-pulse green from
the handler, one yellow from the loop body. -/
theorem runCycle_int0_signals (s : MCUState) :
    (runCycle WakeSource.ExtInt0 s).signals =
      s.signals ++ [(Channel.WatchdogTimeoutChannel, 2),
                    (Channel.SleepInterruptChannel, 1)] := by
  rw [show runCycle WakeSource.ExtInt0 s = loopBody (int0ISR s) from rfl,
      loopBody_signals, int0ISR_eq]
  simp

/-- Signals emitted by a pin-change wake cycle: only the yellow from the
loop body. -/
theorem runCycle_pinchange_signals (s : MCUState) :
    (runCycle WakeSource.PinChange s).signals =
      s.signals ++ [(Channel.SleepInterruptChannel, 1)] := by
  rw [show runCycle WakeSource.PinChange s = loopBody (pcint0ISR s) from rfl,
      loopBody_signals, pcint0ISR_eq]

/-- Once the budget is 0 and the watchdog control register is cleared, any
further wake event keeps both facts and produces no periodic wake. -/
theorem runCycle_dead (e : WakeSource) (s : MCUState)
    (h0 : s.watchdogTimeoutsRemaining = 0) (hw : s.wdtcr = 0) :
    (runCycle e s).watchdogTimeoutsRemaining = 0 ∧ (runCycle e s).wdtcr = 0 ∧
      (runCycle e s).wdtFireCount = s.wdtFireCount := by
  cases e with
  | Watchdog =>
    rw [runCycle_watchdog_not_armed s (by rw [hw]; simp)]
    exact ⟨h0, hw, rfl⟩
  | ExtInt0 =>
    rw [show runCycle WakeSource.ExtInt0 s = loopBody (int0ISR s) from rfl,
        int0ISR_eq, loopBody_eq]
    dsimp only
    rw [if_pos h0]
    exact ⟨h0, rfl, rfl⟩
  | PinChange =>
    rw [show runCycle WakeSource.PinChange s = loopBody (pcint0ISR s) from rfl,
        pcint0ISR_eq, loopBody_eq]
    dsimp only
    rw [if_pos h0]
    exact ⟨h0, rfl, rfl⟩

/-- Once dead (budget 0, control register cleared), no sequence of further
wake events ever changes the periodic-wake count. -/
theorem runCycles_dead (tr : List WakeSource) (s : MCUState)
    (h0 : s.watchdogTimeoutsRemaining = 0) (hw : s.wdtcr = 0) :
    (runCycles tr s).watchdogTimeoutsRemaining = 0 ∧
      (runCycles tr s).wdtcr = 0 ∧
      (runCycles tr s).wdtFireCount = s.wdtFireCount := by
  induction tr generalizing s with
  | nil => exact ⟨h0, hw, rfl⟩
  | cons e es ih =>
    obtain ⟨a, b, c⟩ := runCycle_dead e s h0 hw
    obtain ⟨d, f, g⟩ := ih (runCycle e s) a b
    exact ⟨d, f, g.trans c⟩

/-- A watchdog event is a no-op once the control register is cleared. -/
theorem runCycle_watchdog_fix (s : MCUState) (hw : s.wdtcr = 0) :
    runCycle WakeSource.Watchdog s = s :=
  runCycle_watchdog_not_armed s (by rw [hw]; simp)

/-- Any number of watchdog events is a no-op once the control register is
cleared. -/
theorem runCycles_replicate_watchdog_fix (n : Nat) (s : MCUState)
    (hw : s.wdtcr = 0) :
    runCycles (List.replicate n WakeSource.Watchdog) s = s := by
  induction n with
  | zero => rfl
  | succ k ih =>
    rw [List.replicate_succ]
    show runCycles (List.replicate k WakeSource.Watchdog)
      (runCycle WakeSource.Watchdog s) = s
    rw [runCycle_watchdog_fix s hw]
    exact ih

/-- Iterated INT0 handler: each application appends one 2-pulse green
signal, leaves the yellow count alone and does not touch the budget. -/
theorem int0ISRn_spec (k : Nat) (s : MCUState) :
    countChannel (int0ISRn k s).signals Channel.WatchdogTimeoutChannel =
      countChannel s.signals Channel.WatchdogTimeoutChannel + k ∧
    countChannel (int0ISRn k s).signals Channel.SleepInterruptChannel =
      countChannel s.signals Channel.SleepInterruptChannel ∧
    (int0ISRn k s).watchdogTimeoutsRemaining = s.watchdogTimeoutsRemaining := by
  induction k generalizing s with
  | zero => exact ⟨rfl, rfl, rfl⟩
  | succ k ih =>
    obtain ⟨a, b, c⟩ := ih (int0ISR s)
    rw [show int0ISRn (k + 1) s = int0ISRn k (int0ISR s) from rfl]
    refine ⟨?_, ?_, ?_⟩
    · rw [a, int0ISR_eq]
      dsimp only
      rw [countChannel_append, countChannel_single_same]
      omega
    · rw [b, int0ISR_eq]
      dsimp only
      rw [countChannel_append,
          countChannel_single_other _ _ _ (by simp)]
      omega
    · rw [c, int0ISR_eq]

/-- Running a concatenated pin trace is running the parts in order. -/
theorem runLevelTrace_append (a b : List Level) (st : LevelRunState) :
    runLevelTrace (a ++ b) st = runLevelTrace b (runLevelTrace a st) := by
  induction a generalizing st with
  | nil => rfl
  | cons l ls ih => simp [runLevelTrace, ih]

/-- Holding the pin low with control already stuck at the handler loop:
each sample re-invokes the handler and control never advances. -/
theorem runLevelTrace_low_from_isrLoop (k : Nat) (s : MCUState) :
    runLevelTrace (List.replicate k Level.low)
        { cp := CtrlPoint.inIsrLoop, mcu := s } =
      { cp := CtrlPoint.inIsrLoop, mcu := int0ISRn k s } := by
  induction k generalizing s with
  | zero => rfl
  | succ k ih =>
    rw [List.replicate_succ]
    show runLevelTrace (List.replicate k Level.low)
        (lowLevelStep Level.low { cp := CtrlPoint.inIsrLoop, mcu := s }) = _
    rw [show lowLevelStep Level.low { cp := CtrlPoint.inIsrLoop, mcu := s } =
          { cp := CtrlPoint.inIsrLoop, mcu := int0ISR s } from rfl]
    exact ih (int0ISR s)

/-- Holding the pin low for `n ≥ 1` samples starting from sleep: the
handler runs `n` times and control stays at the handler loop. -/
theorem runLevelTrace_hold_low (n : Nat) (hn : 1 ≤ n) (s : MCUState) :
    runLevelTrace (List.replicate n Level.low)
        { cp := CtrlPoint.sleeping, mcu := s } =
      { cp := CtrlPoint.inIsrLoop, mcu := int0ISRn n s } := by
  obtain ⟨m, rfl⟩ : ∃ m, n = m + 1 := ⟨n - 1, by omega⟩
  rw [List.replicate_succ]
  show runLevelTrace (List.replicate m Level.low)
      (lowLevelStep Level.low { cp := CtrlPoint.sleeping, mcu := s }) = _
  rw [show lowLevelStep Level.low { cp := CtrlPoint.sleeping, mcu := s } =
        { cp := CtrlPoint.inIsrLoop, mcu := int0ISR s } from rfl]
  rw [runLevelTrace_low_from_isrLoop]
  rfl


/-! ### Claims -/

/-- Claim C1: budget exhaustion is terminal.  For every sequence of wake
cycles from the initial state, once `watchdogTimeoutsRemaining` has
reached 0 (the main-loop iteration of that cycle having run and disabled
the watchdog), no further sequence of events — watchdog timer expiries
included — ever produces another periodic wake. -/
theorem budget_exhaustion_terminal (p : Platform) (pre post : List WakeSource)
    (h0 : (runCycles pre (initState p)).watchdogTimeoutsRemaining = 0) :
    (runCycles post (runCycles pre (initState p))).wdtFireCount =
      (runCycles pre (initState p)).wdtFireCount := by
  have hinv := inv_runCycles pre (initState p) (inv_initState p)
  have hw : (runCycles pre (initState p)).wdtcr = 0 := hinv.2.2 h0
  exact (runCycles_dead post _ h0 hw).2.2

/-- Witness for C1: after the 10 budgeted watchdog cycles on the ATtiny85
the budget is 0, and three further events (two watchdog expiries and a
pin-change wake) produce no additional periodic wake. -/
theorem budget_exhaustion_terminal_witness :
    (runCycles (List.replicate 10 WakeSource.Watchdog)
        (initState Platform.ATtiny85)).watchdogTimeoutsRemaining = 0 ∧
    (runCycles [WakeSource.Watchdog, WakeSource.PinChange, WakeSource.Watchdog]
        (runCycles (List.replicate 10 WakeSource.Watchdog)
          (initState Platform.ATtiny85))).wdtFireCount =
      (runCycles (List.replicate 10 WakeSource.Watchdog)
        (initState Platform.ATtiny85)).wdtFireCount :=
  ⟨by decide,
   budget_exhaustion_terminal Platform.ATtiny85
     (List.replicate 10 WakeSource.Watchdog)
     [WakeSource.Watchdog, WakeSource.PinChange, WakeSource.Watchdog]
     (by decide)⟩

/-- Claim C2: for every watchdog firing, `ISR(WDT_vect)` decrements the
wake budget by exactly one and re-arms the WDIE single-fire
interrupt-enable bit, both in the state the handler itself returns (not
deferred to the next main-loop iteration).  The bound excludes only the
int8 wrap-around at -128, which no reachable budget value attains. -/
theorem wdt_isr_decrements_and_rearms (s : MCUState)
    (h1 : -128 < s.watchdogTimeoutsRemaining)
    (h2 : s.watchdogTimeoutsRemaining ≤ 127) :
    (wdtISR s).watchdogTimeoutsRemaining = s.watchdogTimeoutsRemaining - 1 ∧
      (wdtISR s).wdtcr.testBit WDIE = true := by
  constructor
  · rw [wdtISR_eq]
    exact wrap8_eq_self _ (by omega) (by omega)
  · rw [wdtISR_eq]
    dsimp only
    simp [Nat.testBit_or]
    exact Or.inr (by decide)

/-- Witness for C2 at the initial state (budget 10). -/
theorem wdt_isr_decrements_and_rearms_witness :
    (-128 < (initState Platform.ATtiny85).watchdogTimeoutsRemaining ∧
      (initState Platform.ATtiny85).watchdogTimeoutsRemaining ≤ 127) ∧
    ((wdtISR (initState Platform.ATtiny85)).watchdogTimeoutsRemaining =
        (initState Platform.ATtiny85).watchdogTimeoutsRemaining - 1 ∧
      (wdtISR (initState Platform.ATtiny85)).wdtcr.testBit WDIE = true) :=
  ⟨⟨by decide, by decide⟩,
   wdt_isr_decrements_and_rearms (initState Platform.ATtiny85)
     (by decide) (by decide)⟩

/-- Claim C3: the wake budget never goes negative in any state reachable
by interleaving watchdog fires with main-loop iterations (each fire wakes
the sleeping MCU and is followed by its loop iteration; external-interrupt
and pin-change wake cycles may interleave freely). -/
theorem budget_never_negative (p : Platform) (tr : List WakeSource) :
    0 ≤ (runCycles tr (initState p)).watchdogTimeoutsRemaining :=
  (inv_runCycles tr (initState p) (inv_initState p)).1

/-- Counterexample to claim C4 as stated: a watchdog wake cycle from the
initial state emits two signals, not exactly one — the handler itself
flashes the green LED (WatchdogTimeoutChannel) and the main loop then
flashes the yellow one (SleepInterruptChannel). -/
theorem one_signal_per_wake_counterexample :
    (runCycle WakeSource.Watchdog (initState Platform.ATtiny85)).signals.length
        = 2 ∧
      ¬ (runCycle WakeSource.Watchdog
          (initState Platform.ATtiny85)).signals.length = 1 := by
  constructor
  · decide
  · decide

/-- Claim C4 as amended: every wake cycle dispatches exactly one
SleepInterruptChannel signal from the main loop, independent of which
source fired (the code keeps no wake-reason record); the reason-specific
WatchdogTimeoutChannel signals are emitted from interrupt context — one
1-pulse signal per watchdog wake, one 2-pulse signal per INT0 wake, none
for a pin-change wake — so watchdog and INT0 wake cycles emit two signals
in total. -/
theorem signals_per_wake_cycle (s : MCUState)
    (hb : s.wdtcr.testBit WDIE = true) :
    (runCycle WakeSource.Watchdog s).signals =
        s.signals ++ [(Channel.WatchdogTimeoutChannel, 1),
                      (Channel.SleepInterruptChannel, 1)] ∧
      (runCycle WakeSource.ExtInt0 s).signals =
        s.signals ++ [(Channel.WatchdogTimeoutChannel, 2),
                      (Channel.SleepInterruptChannel, 1)] ∧
      (runCycle WakeSource.PinChange s).signals =
        s.signals ++ [(Channel.SleepInterruptChannel, 1)] :=
  ⟨runCycle_watchdog_signals s hb, runCycle_int0_signals s,
   runCycle_pinchange_signals s⟩

/-- Witness for the amended C4 at the initial state. -/
theorem signals_per_wake_cycle_witness :
    (initState Platform.ATtiny85).wdtcr.testBit WDIE = true ∧
    ((runCycle WakeSource.Watchdog (initState Platform.ATtiny85)).signals =
        (initState Platform.ATtiny85).signals ++
          [(Channel.WatchdogTimeoutChannel, 1),
           (Channel.SleepInterruptChannel, 1)] ∧
      (runCycle WakeSource.ExtInt0 (initState Platform.ATtiny85)).signals =
        (initState Platform.ATtiny85).signals ++
          [(Channel.WatchdogTimeoutChannel, 2),
           (Channel.SleepInterruptChannel, 1)] ∧
      (runCycle WakeSource.PinChange (initState Platform.ATtiny85)).signals =
        (initState Platform.ATtiny85).signals ++
          [(Channel.SleepInterruptChannel, 1)]) :=
  ⟨by decide, signals_per_wake_cycle (initState Platform.ATtiny85) (by decide)⟩

/-- Claim C5: with budget 10 and 8-second period, the 80 seconds of idle
operation hold exactly 10 watchdog expiries; running those and any number
of later expiries yields exactly 10 WatchdogTimeoutChannel and exactly 10
SleepInterruptChannel signals, exactly 10 periodic wakes, and no further
ones (the count stays 10 for every additional expiry). -/
theorem literal_scenario_ten_timeouts (p : Platform) (n : Nat) :
    countChannel (runCycles (List.replicate (10 + n) WakeSource.Watchdog)
        (initState p)).signals Channel.WatchdogTimeoutChannel = 10 ∧
    countChannel (runCycles (List.replicate (10 + n) WakeSource.Watchdog)
        (initState p)).signals Channel.SleepInterruptChannel = 10 ∧
    (runCycles (List.replicate (10 + n) WakeSource.Watchdog)
        (initState p)).wdtFireCount = 10 := by
  cases p <;>
    · rw [List.replicate_add, runCycles_append,
          runCycles_replicate_watchdog_fix n _ (by decide)]
      exact ⟨by decide, by decide, by decide⟩

/-- Claim C6: `disable_watchdog()` is idempotent — a second call on an
already-disabled source leaves the state unchanged — and within one call
the WDRF reset-cause flag is cleared first, at a point where the watchdog
control register (periodic generation) is still untouched, before
`wdt_disable()` turns generation off. -/
theorem disable_watchdog_idempotent_and_ordered (s : MCUState) :
    disable_watchdog (disable_watchdog s) = disable_watchdog s ∧
    disable_watchdog s = wdt_disable (clearWDRF s) ∧
    (clearWDRF s).mcusr.testBit WDRF = false ∧
    (clearWDRF s).wdtcr = s.wdtcr := by
  refine ⟨?_, rfl, ?_, rfl⟩
  · unfold disable_watchdog wdt_disable clearWDRF
    dsimp only
    rw [Nat.and_assoc, Nat.and_self]
  · unfold clearWDRF
    dsimp only
    simp [Nat.testBit_and, WDRF, _BV]
    exact fun _ => by decide

/-- Counterexample to claim C7 as stated: the interrupt handler bodies are
not free of signaling and delays — from the initial state, the watchdog
handler grows the signal log, the INT0 handler grows the signal log, and
the pin-change handler executes blocking delay. -/
theorem isr_minimal_counterexample :
    ¬ ((wdtISR (initState Platform.ATtiny85)).signals =
          (initState Platform.ATtiny85).signals ∧
       (int0ISR (initState Platform.ATtiny85)).signals =
          (initState Platform.ATtiny85).signals ∧
       (pcint0ISR (initState Platform.ATtiny85)).delayMs =
          (initState Platform.ATtiny85).delayMs) := by
  decide

/-- Claim C7 as amended: each of the three handler bodies does non-minimal
work in interrupt context — the watchdog handler emits a 1-pulse green
signal with 400 ms of blocking delay (besides the decrement and re-arm),
the INT0 handler emits a 2-pulse green signal with 800 ms of delay, and
the pin-change handler runs a 50 ms debounce delay (but emits no
signal). -/
theorem isr_bodies_side_effects (s : MCUState) :
    (wdtISR s).signals = s.signals ++ [(Channel.WatchdogTimeoutChannel, 1)] ∧
    (wdtISR s).delayMs = s.delayMs + 400 ∧
    (int0ISR s).signals = s.signals ++ [(Channel.WatchdogTimeoutChannel, 2)] ∧
    (int0ISR s).delayMs = s.delayMs + 800 ∧
    (pcint0ISR s).signals = s.signals ∧
    (pcint0ISR s).delayMs = s.delayMs + 50 :=
  ⟨rfl, rfl, rfl, rfl, rfl, rfl⟩

/-- Counterexample to claim C8 as stated: on the falling-edge platform the
single press-and-release (exactly one falling edge, hence one INT0 wake
cycle) does not yield zero WatchdogTimeoutChannel signals — the INT0
handler emits one. -/
theorem edge_press_counterexample :
    ¬ countChannel (runCycles
        (List.replicate (fallingEdges Level.high pressReleaseTrace)
          WakeSource.ExtInt0)
        (initState Platform.ATmega328P)).signals
        Channel.WatchdogTimeoutChannel = 0 := by
  decide

/-- Claim C8 as amended: the ATmega328P INT0 input is configured
falling-edge, a single press-and-release contains exactly one falling
edge and so produces exactly one wake cycle and exactly one
SleepInterruptChannel signal — but also exactly one (2-pulse)
WatchdogTimeoutChannel signal emitted from the INT0 handler, not zero. -/
theorem edge_press_signals :
    int0Sense Platform.ATmega328P (initState Platform.ATmega328P) =
        Int0Sense.FallingEdge ∧
    fallingEdges Level.high pressReleaseTrace = 1 ∧
    (runCycles (List.replicate (fallingEdges Level.high pressReleaseTrace)
        WakeSource.ExtInt0) (initState Platform.ATmega328P)).signals =
      [(Channel.WatchdogTimeoutChannel, 2),
       (Channel.SleepInterruptChannel, 1)] := by
  refine ⟨by decide, by decide, by decide⟩

/-- Claim C9: the ATtiny85 configures INT0 as low-level sense; while the
input is held low the handler is invoked once per sample, repeatedly, and
the main context never reaches past the sleep suspension point; only after
the input returns high does control pass the suspension point and the
main loop dispatch its (SleepInterruptChannel) signal. -/
theorem level_trigger_blocks_until_release (n k : Nat) (hn : 1 ≤ n)
    (hk : k ≤ n) (s : MCUState) :
    int0Sense Platform.ATtiny85 (initState Platform.ATtiny85) =
        Int0Sense.LowLevel ∧
    (runLevelTrace (List.replicate k Level.low)
        { cp := CtrlPoint.sleeping, mcu := s }).cp ≠ CtrlPoint.pastSleep ∧
    countChannel (runLevelTrace (List.replicate n Level.low)
        { cp := CtrlPoint.sleeping, mcu := s }).mcu.signals
        Channel.WatchdogTimeoutChannel =
      countChannel s.signals Channel.WatchdogTimeoutChannel + n ∧
    (runLevelTrace (List.replicate n Level.low ++ [Level.high])
        { cp := CtrlPoint.sleeping, mcu := s }).cp = CtrlPoint.pastSleep ∧
    countChannel (runLevelTrace (List.replicate n Level.low ++ [Level.high])
        { cp := CtrlPoint.sleeping, mcu := s }).mcu.signals
        Channel.SleepInterruptChannel =
      countChannel s.signals Channel.SleepInterruptChannel + 1 := by
  have hrun := runLevelTrace_hold_low n hn s
  have happ : runLevelTrace (List.replicate n Level.low ++ [Level.high])
      { cp := CtrlPoint.sleeping, mcu := s } =
      { cp := CtrlPoint.pastSleep, mcu := loopBody (int0ISRn n s) } := by
    rw [runLevelTrace_append, hrun]
    rfl
  refine ⟨by decide, ?_, ?_, ?_, ?_⟩
  · rcases Nat.eq_zero_or_pos k with hk0 | hk1
    · subst hk0
      simp [runLevelTrace]
    · rw [runLevelTrace_hold_low k hk1 s]
      simp
  · rw [hrun]
    exact (int0ISRn_spec n s).1
  · rw [happ]
  · rw [happ]
    show countChannel (loopBody (int0ISRn n s)).signals
        Channel.SleepInterruptChannel = _
    rw [loopBody_signals, countChannel_append, countChannel_single_same,
        (int0ISRn_spec n s).2.1]

/-- Witness for C9: pin held low for three samples then released, from
the power-on state. -/
theorem level_trigger_blocks_until_release_witness :
    (1 ≤ 3 ∧ 2 ≤ 3) ∧
    (int0Sense Platform.ATtiny85 (initState Platform.ATtiny85) =
        Int0Sense.LowLevel ∧
    (runLevelTrace (List.replicate 2 Level.low)
        { cp := CtrlPoint.sleeping, mcu := powerOnState }).cp ≠
        CtrlPoint.pastSleep ∧
    countChannel (runLevelTrace (List.replicate 3 Level.low)
        { cp := CtrlPoint.sleeping, mcu := powerOnState }).mcu.signals
        Channel.WatchdogTimeoutChannel =
      countChannel powerOnState.signals Channel.WatchdogTimeoutChannel + 3 ∧
    (runLevelTrace (List.replicate 3 Level.low ++ [Level.high])
        { cp := CtrlPoint.sleeping, mcu := powerOnState }).cp =
        CtrlPoint.pastSleep ∧
    countChannel (runLevelTrace (List.replicate 3 Level.low ++ [Level.high])
        { cp := CtrlPoint.sleeping, mcu := powerOnState }).mcu.signals
        Channel.SleepInterruptChannel =
      countChannel powerOnState.signals Channel.SleepInterruptChannel + 1) :=
  ⟨⟨by decide, by decide⟩,
   level_trigger_blocks_until_release 3 2 (by decide) (by decide)
     powerOnState⟩

/-- Claim C10: the pin-change input wakes on both transition directions: a
press alone is one change and a release alone is one change, so a single
press-and-release produces exactly two wake cycles and exactly two
SleepInterruptChannel signals (and no WatchdogTimeoutChannel signal),
never one. -/
theorem pinchange_press_release_two_wakes (p : Platform) :
    pinChanges Level.high [Level.low] = 1 ∧
    pinChanges Level.low [Level.high] = 1 ∧
    pinChanges Level.high pressReleaseTrace = 2 ∧
    (runCycles (List.replicate (pinChanges Level.high pressReleaseTrace)
        WakeSource.PinChange) (initState p)).signals =
      [(Channel.SleepInterruptChannel, 1), (Channel.SleepInterruptChannel, 1)] ∧
    countChannel (runCycles (List.replicate
        (pinChanges Level.high pressReleaseTrace) WakeSource.PinChange)
        (initState p)).signals Channel.SleepInterruptChannel = 2 := by
  cases p <;> exact ⟨by decide, by decide, by decide, by decide, by decide⟩

end Attiny85Watchdog
